import Mathlib

/-!
Verification of the `helpers/ldap.ts` core of the n8n-nodes-ad-admin
repository: attribute codec (DN escaping, sAMAccountName/UPN validation,
password encoding, userAccountControl and groupType bit handling), the
connection manager's one-shot reconnect-retry wrapper, and the domain
operations (create user, unlock account, group membership, group listing)
modelled as explicit state passing over a small directory model.

JavaScript numeric and string semantics relevant to the source (32-bit
bitwise operators, parseInt, falsiness of 0 / NaN / empty string, the
regex whitespace class) are embedded explicitly.
-/

/-- Characters matched by the JavaScript regex whitespace class of
a regular expression (the class written backslash-s):
space, tab, LF, VT, FF, CR, NBSP, and the Unicode space separators. -/
def isJsRegexWs (c : Char) : Bool :=
  c = ' ' || c = '\t' || c = '\n' || c.toNat = 11 || c.toNat = 12 || c = '\r' ||
  c.toNat = 160 || c.toNat = 5760 ||
  (8192 ≤ c.toNat && c.toNat ≤ 8202) ||
  c.toNat = 8232 || c.toNat = 8233 || c.toNat = 8239 || c.toNat = 8287 ||
  c.toNat = 12288 || c.toNat = 65279

/-- Digits taken from the front of a character list (JavaScript parseInt
with radix 10 reads the longest prefix of decimal digits). -/
def decDigits : List Char → List Char
  | [] => []
  | c :: cs => if c.isDigit then c :: decDigits cs else []

/-- Numeric value of a list of decimal digit characters. -/
def digitsVal (l : List Char) : Nat :=
  l.foldl (fun acc c => acc * 10 + (c.toNat - 48)) 0

/-- JavaScript parseInt with radix 10: skip leading whitespace, an
optional sign, then read the longest decimal-digit prefix; NaN (here
none) when no digit follows. -/
def parseIntJS (s : String) : Option Int :=
  let rest := s.data.dropWhile isJsRegexWs
  match rest with
  | '-' :: cs =>
      let ds := decDigits cs
      if ds = [] then none else some (-(digitsVal ds : Int))
  | '+' :: cs =>
      let ds := decDigits cs
      if ds = [] then none else some (digitsVal ds : Int)
  | cs =>
      let ds := decDigits cs
      if ds = [] then none else some (digitsVal ds : Int)

/-- The 32-bit pattern of a JavaScript number fed to a bitwise operator
(ToInt32: the value modulo 2^32, as an unsigned pattern). -/
def pat32 (v : Int) : Nat := (v % 4294967296).toNat

/-- Reading a 32-bit pattern back as a signed JavaScript number. -/
def ofPat32 (n : Nat) : Int :=
  if n < 2147483648 then (n : Int) else (n : Int) - 4294967296

/-- JavaScript bitwise AND. -/
def jsAnd (a b : Int) : Int := ofPat32 (pat32 a &&& pat32 b)

/-- JavaScript bitwise OR. -/
def jsOr (a b : Int) : Int := ofPat32 (pat32 a ||| pat32 b)

/-- JavaScript bitwise NOT. -/
def jsNot (a : Int) : Int := ofPat32 (pat32 a ^^^ 4294967295)

/-- A JavaScript number in canonical 32-bit signed range. -/
def isInt32 (v : Int) : Prop := -2147483648 ≤ v ∧ v < 2147483648

instance (v : Int) : Decidable (isInt32 v) := by unfold isInt32; infer_instance

/-- UTF-16 code units of a character (a surrogate pair above 0xFFFF). -/
def utf16Units (c : Char) : List Nat :=
  let n := c.toNat
  if n < 65536 then [n]
  else
    let v := n - 65536
    [55296 + v / 1024, 56320 + v % 1024]

/-- Little-endian byte pair of one UTF-16 code unit. -/
def unitBytesLE (u : Nat) : List Nat := [u % 256, u / 256]

/-- UTF-16LE byte sequence of a string (Buffer.from(s, utf16le)). -/
def utf16leBytes (s : String) : List Nat :=
  (s.data.flatMap utf16Units).flatMap unitBytesLE

/-- Replace every occurrence of a character by a replacement string
(JavaScript String.replace with a global single-character pattern). -/
def replaceAllChar (s : String) (c : Char) (r : String) : String :=
  String.join (s.data.map (fun ch => if ch = c then r else String.singleton ch))

/-- src/helpers/ldap.ts escapeDN (lines 16-29): the eleven sequential
replacements, in source order. -/
def escapeDN (str : String) : String :=
  let s1 := replaceAllChar str '\\' "\\\\"
  let s2 := replaceAllChar s1 ',' "\\,"
  let s3 := replaceAllChar s2 '+' "\\+"
  let s4 := replaceAllChar s3 '"' "\\\""
  let s5 := replaceAllChar s4 '<' "\\<"
  let s6 := replaceAllChar s5 '>' "\\>"
  let s7 := replaceAllChar s6 ';' "\\;"
  let s8 := replaceAllChar s7 '=' "\\="
  let s9 := if s8.startsWith "#" then "\\" ++ s8 else s8
  let s10 := if s9.startsWith " " then "\\" ++ s9 else s9
  if s10.endsWith " " then s10.dropRight 1 ++ "\\ " else s10

/-- JavaScript string length: number of UTF-16 code units. -/
def jsLength (s : String) : Nat :=
  (s.data.map (fun c => (utf16Units c).length)).sum

/-- A character rejected by the sAMAccountName validation regex
(class: regex whitespace, double quote, slash, backslash, brackets,
colon, semicolon, pipe, equals, comma, plus, star, question, angles). -/
def isBadSamChar (c : Char) : Bool :=
  isJsRegexWs c || c = '"' || c = '/' || c = '\\' || c = '[' || c = ']' ||
  c = ':' || c = ';' || c = '|' || c = '=' || c = ',' || c = '+' ||
  c = '*' || c = '?' || c = '<' || c = '>'

/-- Result of a validation function in src/helpers/ldap.ts. -/
structure ValidationResult where
  valid : Bool
  errMsg : Option String
deriving DecidableEq, Repr

/-- src/helpers/ldap.ts validateSAMAccountName (lines 34-45). -/
def validateSAMAccountName (sam : String) : ValidationResult :=
  if jsLength sam = 0 then
    { valid := false, errMsg := some "sAMAccountName cannot be empty" }
  else if jsLength sam > 20 then
    { valid := false, errMsg := some "sAMAccountName cannot exceed 20 characters" }
  else if sam.data.any isBadSamChar then
    { valid := false, errMsg := some "sAMAccountName contains invalid characters" }
  else
    { valid := true, errMsg := none }

/-- A character allowed inside the local and domain parts of the UPN
regex (anything but regex whitespace and the at sign). -/
def isUpnBodyChar (c : Char) : Bool := !(isJsRegexWs c) && c ≠ '@'

/-- Whether a character list matches the UPN email regex: one or more
body characters, an at sign, one or more body characters, a dot, one or
more body characters (dots may also appear inside the body parts, so the
domain matches when some inner position carries a dot). -/
def upnShape (l : List Char) : Bool :=
  let localPart := l.takeWhile (fun c => c ≠ '@')
  let rest := l.drop localPart.length
  match rest with
  | '@' :: domain =>
      localPart ≠ [] && localPart.all isUpnBodyChar &&
      domain ≠ [] && domain.all isUpnBodyChar &&
      ((domain.drop 1).dropLast.contains '.')
  | _ => false

/-- src/helpers/ldap.ts validateUPN (lines 50-59): the includes check
first, then the email-shaped regex test. -/
def validateUPN (upn : String) : ValidationResult :=
  if upn = "" || !(upn.data.contains '@') then
    { valid := false, errMsg := some "UPN must be in format user@domain.tld" }
  else if upnShape upn.data then
    { valid := true, errMsg := none }
  else
    { valid := false, errMsg := some "Invalid UPN format" }

/-- The value of currentUAC in enableUser/disableUser (ldap.ts lines
184 and 209): parseInt of the stored attribute, with the JavaScript
falsy-or defaulting any NaN or 0 result to 512; an absent attribute
stringifies to undefined, which parses as NaN. -/
def uacCurrent (stored : Option String) : Int :=
  match stored with
  | none => 512
  | some s =>
      match parseIntJS s with
      | none => 512
      | some v => if v = 0 then 512 else v

/-- The disable transformation (ldap.ts line 210): set the
ACCOUNTDISABLE bit 0x0002. -/
def setDisabled (v : Int) : Int := jsOr v 2

/-- The enable transformation (ldap.ts line 185): clear the
ACCOUNTDISABLE bit 0x0002. -/
def clearDisabled (v : Int) : Int := jsAnd v (jsNot 2)

/-- Group scope option of createGroup (ldap.ts lines 844, 863-869). -/
inductive GroupScope
  | global
  | domainLocal
  | universal
deriving DecidableEq, Repr

/-- Group category option of createGroup (ldap.ts lines 843, 872-874). -/
inductive GroupCategory
  | security
  | distribution
deriving DecidableEq, Repr

/-- Scope decoded from a groupType bitmask (ldap.ts lines 918-921):
first matching bit in order global, domainLocal, universal, else
unknown. -/
inductive DecodedScope
  | global
  | domainLocal
  | universal
  | unknown
deriving DecidableEq, Repr

/-- groupTypeValue computed by createGroup (ldap.ts lines 860-874):
the scope bit OR'd in, then the security high bit when the category is
security; JavaScript OR-assignment wraps through 32-bit signed ints. -/
def encodeGroupType (scope : GroupScope) (cat : GroupCategory) : Int :=
  let v : Int := 0
  let v :=
    match scope with
    | .global => jsOr v 2
    | .domainLocal => jsOr v 4
    | .universal => jsOr v 8
  match cat with
  | .security => jsOr v 2147483648
  | .distribution => v

/-- The wire form of the groupType attribute written by createGroup
(ldap.ts line 880): String(groupTypeValue). -/
def groupTypeWire (scope : GroupScope) (cat : GroupCategory) : String :=
  toString (encodeGroupType scope cat)

/-- The numeric groupType read back by getGroup/listGroups (ldap.ts
lines 914, 1030): parseInt of the stored string, or of the literal 0
when the attribute is absent or empty; a NaN parse behaves as 0 under
the bitwise tests that follow, so it is folded to 0 here. -/
def groupTypeValueOf (stored : Option String) : Int :=
  match stored with
  | none => 0
  | some s =>
      if s = "" then 0
      else
        match parseIntJS s with
        | none => 0
        | some v => v

/-- groupType decoding of getGroup (ldap.ts lines 917-921) and
listGroups (lines 1031-1035): the security high bit selects the
category, the first matching scope bit in order global, domainLocal,
universal selects the scope. -/
def decodeGroupType (stored : Option String) : GroupCategory × DecodedScope :=
  let gv := groupTypeValueOf stored
  let cat := if jsAnd gv 2147483648 ≠ 0 then GroupCategory.security else GroupCategory.distribution
  let scope :=
    if jsAnd gv 2 ≠ 0 then DecodedScope.global
    else if jsAnd gv 4 ≠ 0 then DecodedScope.domainLocal
    else if jsAnd gv 8 ≠ 0 then DecodedScope.universal
    else DecodedScope.unknown
  (cat, scope)

/-- The scope a created group's bitmask should decode back to. -/
def liftScope : GroupScope → DecodedScope
  | .global => .global
  | .domainLocal => .domainLocal
  | .universal => .universal

/-- The LdapConfig interface of src/helpers/ldap.ts (lines 3-11). -/
structure LdapConfig where
  url : String
  bindDn : String
  password : String
  timeout : Option Nat
  tlsRejectUnauthorized : Option Bool
  tlsCa : Option String
  isSecure : Option Bool
  hostType : Option String
deriving DecidableEq, Repr

/-- The underlying ldapts session as configured by the AdClient
constructor (lines 66-76) or reconnect (lines 98-105), together with
the identity it is bound as. -/
structure Session where
  url : String
  timeout : Nat
  connectTimeout : Nat
  tlsRejectUnauthorized : Option Bool
  tlsCa : Option String
  boundDn : String
  boundPw : String
deriving DecidableEq, Repr

/-- A thrown JavaScript error as observed by the catch blocks: only its
optional message field is inspected. -/
structure JsError where
  message : Option String
deriving DecidableEq, Repr

/-- Substring containment, the JavaScript String.includes test. -/
def strIncludes (s pat : String) : Bool := decide (pat.data <:+: s.data)

/-- The transport-fault test of the catch blocks in add/modify/search
and the delete wrappers (ldap.ts lines 112, 125, 138, 793, 980):
message includes closed or includes timeout; a missing message is
falsy and does not match. -/
def isTransportFault (e : JsError) : Bool :=
  match e.message with
  | none => false
  | some m => strIncludes m "closed" || strIncludes m "timeout"

/-- The session built by reconnect (ldap.ts lines 93-106): fresh client
options from the stored config, then bind with the stored bindDn and
password. -/
def reconnectSession (cfg : LdapConfig) : Session :=
  { url := cfg.url
    timeout := cfg.timeout.getD 10000
    connectTimeout := cfg.timeout.getD 10000
    tlsRejectUnauthorized := cfg.tlsRejectUnauthorized
    tlsCa := cfg.tlsCa
    boundDn := cfg.bindDn
    boundPw := cfg.password }

/-- The retry wrapper shared by add/modify/search/del (ldap.ts lines
108-145, 784-805, 971-992), with the outcome of each possible attempt
supplied as an oracle: on a first-attempt transport fault, reconnect
once and return the second attempt's outcome; otherwise return the
first outcome untouched. Returns the result, the session afterwards,
the number of reconnects, and the number of attempts made. -/
def withResilience {α : Type} (cfg : LdapConfig) (s : Session)
    (first second : Except JsError α) :
    Except JsError α × Session × Nat × Nat :=
  match first with
  | .ok a => (.ok a, s, 0, 1)
  | .error e =>
      if isTransportFault e then (second, reconnectSession cfg, 1, 2)
      else (.error e, s, 0, 1)

/-- A stored attribute value: a string, a list of strings, or raw
bytes (the ldapts value shapes used by this code). -/
inductive AttrVal
  | str (s : String)
  | strList (l : List String)
  | bytes (b : List Nat)
deriving DecidableEq, Repr

/-- A directory entry: attribute name to value. -/
abbrev DirEntry := List (String × AttrVal)

/-- Directory contents: DN to entry. -/
abbrev Dir := List (String × DirEntry)

/-- Attribute lookup on an entry. -/
def entryAttr (e : DirEntry) (k : String) : Option AttrVal := List.lookup k e

/-- The JavaScript stringification applied before parseInt at the read
sites (value as string): a string stays itself, an array joins with
commas; a byte value never occurs on the integer attributes read this
way and yields no string. -/
def attrString : Option AttrVal → Option String
  | none => none
  | some (.str s) => some s
  | some (.strList l) => some (String.intercalate "," l)
  | some (.bytes _) => none

/-- One primitive call issued to the connection layer. -/
inductive DirCall
  | add (dn : String) (e : DirEntry)
  | modifyReplace (dn attr : String) (v : AttrVal)
  | searchBase (dn : String) (attrs : List String)
deriving DecidableEq, Repr

/-- Errors surfaced by the modelled operations. -/
inductive OpError
  | entryExists (dn : String)
  | noSuchObject (dn : String)
  | userNotFound (dn : String)
  | lockoutInfoUnavailable
  | policyLdapsRequired
  | invalidSamName
  | invalidUpnFormat
deriving DecidableEq, Repr

/-- Client-side state: the directory contents plus the trace of
primitive calls issued so far. -/
structure ClientSt where
  dir : Dir
  calls : List DirCall
deriving DecidableEq, Repr

/-- DN lookup in the directory. -/
def dirLookup (d : Dir) (dn : String) : Option DirEntry := List.lookup dn d

/-- An add call: recorded in the trace, rejected when the DN already
exists, otherwise the entry is inserted. -/
def stAdd (st : ClientSt) (dn : String) (e : DirEntry) :
    Except OpError Unit × ClientSt :=
  let st1 : ClientSt := { st with calls := st.calls ++ [DirCall.add dn e] }
  match dirLookup st.dir dn with
  | some _ => (.error (.entryExists dn), st1)
  | none => (.ok (), { st1 with dir := (dn, e) :: st.dir })

/-- Replace one attribute of the entry at a DN. -/
def dirReplaceAttr (d : Dir) (dn k : String) (v : AttrVal) : Dir :=
  d.map (fun p => if p.1 = dn then (p.1, (k, v) :: p.2.filter (fun q => q.1 ≠ k)) else p)

/-- A modify call with a single replace change: recorded in the trace,
rejected when the DN is absent, otherwise the attribute is replaced. -/
def stModify (st : ClientSt) (dn k : String) (v : AttrVal) :
    Except OpError Unit × ClientSt :=
  let st1 : ClientSt := { st with calls := st.calls ++ [DirCall.modifyReplace dn k v] }
  match dirLookup st.dir dn with
  | none => (.error (.noSuchObject dn), st1)
  | some _ => (.ok (), { st1 with dir := dirReplaceAttr st.dir dn k v })

/-- A base-scope search at a DN: recorded in the trace; yields the
entry when present, no entries otherwise. -/
def stSearchBase (st : ClientSt) (dn : String) (attrs : List String) :
    Option DirEntry × ClientSt :=
  (dirLookup st.dir dn, { st with calls := st.calls ++ [DirCall.searchBase dn attrs] })

/-- AdClient.setPassword (ldap.ts lines 150-169): refuse outright when
the config marks the transport unsecured, before any wire call; else a
single modify replacing unicodePwd with the UTF-16LE bytes of the
double-quote-wrapped password. -/
def setPassword (cfg : LdapConfig) (st : ClientSt) (dn newPassword : String) :
    Except OpError Unit × ClientSt :=
  if cfg.isSecure = some false then (.error .policyLdapsRequired, st)
  else stModify st dn "unicodePwd" (.bytes (utf16leBytes ("\"" ++ newPassword ++ "\"")))

/-- AdClient.enableUser (ldap.ts lines 174-194): base search of
userAccountControl, error when no entry, else one modify replacing
userAccountControl with the cleared bitmask stringified. -/
def enableUserM (st : ClientSt) (dn : String) : Except OpError Unit × ClientSt :=
  match stSearchBase st dn ["userAccountControl"] with
  | (none, st1) => (.error (.userNotFound dn), st1)
  | (some e, st1) =>
      let newUAC := clearDisabled (uacCurrent (attrString (entryAttr e "userAccountControl")))
      stModify st1 dn "userAccountControl" (.str (toString newUAC))

/-- AdClient.disableUser (ldap.ts lines 199-219): same read-then-write
with the bit set instead of cleared. -/
def disableUserM (st : ClientSt) (dn : String) : Except OpError Unit × ClientSt :=
  match stSearchBase st dn ["userAccountControl"] with
  | (none, st1) => (.error (.userNotFound dn), st1)
  | (some e, st1) =>
      let newUAC := setDisabled (uacCurrent (attrString (entryAttr e "userAccountControl")))
      stModify st1 dn "userAccountControl" (.str (toString newUAC))

/-- Result envelope of unlockUserAccount. -/
structure UnlockRes where
  wasLocked : Bool
  unlocked : Bool
deriving DecidableEq, Repr

/-- AdClient.unlockUserAccount (ldap.ts lines 570-610) after the user's
DN has been found: base search of lockoutTime; the account counts as
locked when the attribute stringifies to a non-empty string other than
the literal 0 (JavaScript truthiness of the && chain); when not locked,
return wasLocked false with no write; else one modify replacing
lockoutTime with the string 0. -/
def unlockUserM (st : ClientSt) (dn : String) : Except OpError UnlockRes × ClientSt :=
  match stSearchBase st dn ["lockoutTime", "userAccountControl"] with
  | (none, st1) => (.error .lockoutInfoUnavailable, st1)
  | (some e, st1) =>
      let lt := attrString (entryAttr e "lockoutTime")
      let isLocked :=
        match lt with
        | none => false
        | some s => s ≠ "" && s ≠ "0"
      if isLocked then
        match stModify st1 dn "lockoutTime" (.str "0") with
        | (.ok _, st2) => (.ok { wasLocked := true, unlocked := true }, st2)
        | (.error er, st2) => (.error er, st2)
      else (.ok { wasLocked := false, unlocked := false }, st1)

/-- The DN built for a new user (node.ts line 1261): CN= plus the
escaped CN, a comma, the caller-supplied parent OU DN. -/
def mkUserDn (cn parentOuDn : String) : String :=
  "CN=" ++ escapeDN cn ++ "," ++ parentOuDn

/-- nameParts of createUser (node.ts line 1264): trim, then split on
whitespace runs (the regex split yields the nonempty tokens of a
trimmed string; an empty trimmed string yields no usable token). -/
def namePartsOf (cn : String) : List String :=
  ((cn.trim).split (fun c => c.isWhitespace)).filter (fun t => t ≠ "")

/-- givenName of createUser (node.ts line 1265): first token, falling
back to the CN itself. -/
def givenNameOf (cn : String) : String := (namePartsOf cn).headD cn

/-- sn of createUser (node.ts line 1266): last token when there are at
least two, else the CN itself. -/
def snOf (cn : String) : String :=
  if (namePartsOf cn).length > 1 then ((namePartsOf cn).getLast?).getD cn else cn

/-- The entry handed to add by createUser (node.ts lines 1268-1277),
with the fixed initial userAccountControl of 514 stringified. -/
def createEntry (cn sam upn : String) : DirEntry :=
  [("objectClass", AttrVal.strList ["top", "person", "organizationalPerson", "user"]),
   ("cn", AttrVal.str cn),
   ("sAMAccountName", AttrVal.str sam),
   ("userPrincipalName", AttrVal.str upn),
   ("sn", AttrVal.str (snOf cn)),
   ("givenName", AttrVal.str (givenNameOf cn)),
   ("displayName", AttrVal.str cn),
   ("userAccountControl", AttrVal.str "514")]

/-- Parameters of the create-user operation (node.ts lines 1243-1249). -/
structure CreateUserParams where
  cn : String
  parentOuDn : String
  samAccountName : String
  upn : String
  initialPassword : String
  pwdMustChange : Bool
  enableImmediately : Bool
deriving DecidableEq, Repr

/-- Success envelope of createUser (node.ts lines 1295-1306). -/
structure CreateUserRes where
  success : Bool
  dn : String
  sAMAccountName : String
  userPrincipalName : String
  enabled : Bool
  mustChangePassword : Bool
deriving DecidableEq, Repr

/-- createUser (node.ts lines 1242-1307): validate both names before
any directory call; add the 514 entry; set the password; when
requested, modify pwdLastSet to 0; when requested, run the enable
read-then-modify; report enabled and mustChangePassword from the two
request flags. Any step's error aborts the remaining steps. -/
def createUserM (cfg : LdapConfig) (st : ClientSt) (p : CreateUserParams) :
    Except OpError CreateUserRes × ClientSt :=
  if !(validateSAMAccountName p.samAccountName).valid then (.error .invalidSamName, st)
  else if !(validateUPN p.upn).valid then (.error .invalidUpnFormat, st)
  else
    let dn := mkUserDn p.cn p.parentOuDn
    match stAdd st dn (createEntry p.cn p.samAccountName p.upn) with
    | (.error e1, st1) => (.error e1, st1)
    | (.ok _, st1) =>
        match setPassword cfg st1 dn p.initialPassword with
        | (.error e2, st2) => (.error e2, st2)
        | (.ok _, st2) =>
            let step3 :=
              if p.pwdMustChange then stModify st2 dn "pwdLastSet" (AttrVal.str "0")
              else (.ok (), st2)
            match step3 with
            | (.error e3, st3) => (.error e3, st3)
            | (.ok _, st3) =>
                let step4 :=
                  if p.enableImmediately then enableUserM st3 dn
                  else (.ok (), st3)
                match step4 with
                | (.error e4, st4) => (.error e4, st4)
                | (.ok _, st4) =>
                    (.ok { success := true
                           dn := dn
                           sAMAccountName := p.samAccountName
                           userPrincipalName := p.upn
                           enabled := p.enableImmediately
                           mustChangePassword := p.pwdMustChange }, st4)

/-- The member attribute of a group entry as ldapts returns it: one
string or an array of strings. -/
inductive MemberVal
  | single (s : String)
  | multi (l : List String)
deriving DecidableEq, Repr

/-- A group entry as seen by isGroupMember: only its member attribute
is inspected. -/
structure GroupSearchEntry where
  member : Option MemberVal
deriving DecidableEq, Repr

/-- Character-wise lowering (the ASCII range of JavaScript
toLowerCase, the case arising in DN comparison). -/
def jsToLower (s : String) : String := String.mk (s.data.map Char.toLower)

/-- AdClient.isGroupMember (ldap.ts lines 224-243): any search error is
swallowed to false; no entries or a falsy member attribute (absent, or
a single empty string) give false; otherwise true exactly when some
member value equals the candidate DN after lowering both. -/
def isGroupMember (userDn : String) (searchRes : Except JsError (List GroupSearchEntry)) :
    Bool :=
  match searchRes with
  | .error _ => false
  | .ok [] => false
  | .ok (e :: _) =>
      match e.member with
      | none => false
      | some (.single s) =>
          if s = "" then false else jsToLower s = jsToLower userDn
      | some (.multi l) => l.any (fun m => jsToLower m = jsToLower userDn)

/-- A raw group entry returned by the listGroups search. -/
structure RawGroup where
  dn : String
  cn : String
  samAccountName : Option String
  description : Option String
  groupTypeAttr : Option String
deriving DecidableEq, Repr

/-- Category name string produced by the decoders. -/
def catStr : GroupCategory → String
  | .security => "security"
  | .distribution => "distribution"

/-- Scope name string produced by the decoders. -/
def scopeStr : DecodedScope → String
  | .global => "global"
  | .domainLocal => "domainLocal"
  | .universal => "universal"
  | .unknown => "unknown"

/-- One decoded row of listGroups (ldap.ts lines 1029-1046). -/
structure GroupRow where
  dn : String
  name : String
  groupType : String
  scope : String
deriving DecidableEq, Repr

/-- The map step of listGroups applied to one raw entry. -/
def decodeGroupRow (g : RawGroup) : GroupRow :=
  let dec := decodeGroupType g.groupTypeAttr
  { dn := g.dn, name := g.cn, groupType := catStr dec.1, scope := scopeStr dec.2 }

/-- The post-filter of listGroups (ldap.ts lines 1047-1057). -/
def groupRowKeep (groupTypeFilter scopeFilter : String) (g : GroupRow) : Bool :=
  !(groupTypeFilter ≠ "all" && g.groupType ≠ groupTypeFilter) &&
  !(scopeFilter ≠ "all" && g.scope ≠ scopeFilter)

/-- AdClient.listGroups (ldap.ts lines 997-1058) over the directory's
raw matches for the class filter: a truthy maxResults is applied as the
search sizeLimit, truncating the raw result set, before the rows are
decoded and the groupType and scope post-filters run. -/
def listGroupsModel (rawGroups : List RawGroup)
    (groupTypeFilter scopeFilter : String) (maxResults : Option Nat) :
    List GroupRow :=
  let limited :=
    match maxResults with
    | some m => if m ≠ 0 then rawGroups.take m else rawGroups
    | none => rawGroups
  (limited.map decodeGroupRow).filter (groupRowKeep groupTypeFilter scopeFilter)

/-- The character set the specification lists for sAMAccountName
rejection, written from the claim text for comparison with the
implemented class: a literal space (not the whole whitespace class)
plus the listed punctuation. -/
def samClaimChars : List Char :=
  [' ', '"', '/', '\\', '[', ']', ':', ';', '|', '=', ',', '+', '*', '?', '<', '>']

/-! Helper lemmas on the 32-bit patterns and the directory model. -/

theorem pat32_lt (v : Int) : pat32 v < 4294967296 := by
  unfold pat32; omega

theorem pat32_ofPat32 {n : Nat} (h : n < 4294967296) : pat32 (ofPat32 n) = n := by
  unfold pat32 ofPat32; split <;> omega

theorem ofPat32_pat32 {v : Int} (h : isInt32 v) : ofPat32 (pat32 v) = v := by
  unfold pat32 ofPat32 isInt32 at *; split <;> omega

theorem pat32_jsAnd (a b : Int) : pat32 (jsAnd a b) = pat32 a &&& pat32 b := by
  unfold jsAnd
  exact pat32_ofPat32 (by
    have h := Nat.and_lt_two_pow (pat32 a) (n := 32) (by simpa using pat32_lt b)
    simpa using h)

theorem pat32_jsOr (a b : Int) : pat32 (jsOr a b) = pat32 a ||| pat32 b := by
  unfold jsOr
  exact pat32_ofPat32 (by
    have h := Nat.or_lt_two_pow (n := 32) (by simpa using pat32_lt a) (by simpa using pat32_lt b)
    simpa using h)

theorem pat32_two : pat32 2 = 2 := by decide

theorem pat32_jsNot_two : pat32 (jsNot 2) = 4294967293 := by decide

theorem testBit_m32 : ∀ i, i < 32 → i ≠ 1 → Nat.testBit 4294967293 i = true := by decide

theorem testBit_m32_one : Nat.testBit 4294967293 1 = false := by decide

theorem testBit_two : ∀ i, i ≠ 1 → Nat.testBit 2 i = false := by
  intro i hi
  have h2 : (2 : Nat) = 2 ^ 1 := by norm_num
  rw [h2, Nat.testBit_two_pow]
  simp [Ne.symm hi]

theorem testBit_ge32 {p : Nat} (hp : p < 4294967296) {i : Nat} (hi : 32 ≤ i) :
    Nat.testBit p i = false := by
  apply Nat.testBit_lt_two_pow
  calc p < 4294967296 := hp
    _ = 2 ^ 32 := by norm_num
    _ ≤ 2 ^ i := Nat.pow_le_pow_right (by norm_num) hi

theorem set_clear_pattern (p : Nat) :
    (p ||| 2) &&& 4294967293 = p &&& 4294967293 := by
  apply Nat.eq_of_testBit_eq
  intro i
  rcases eq_or_ne i 1 with h1 | h1
  · subst h1
    simp [Nat.testBit_and, testBit_m32_one]
  · simp [Nat.testBit_and, Nat.testBit_or, testBit_two i h1]

theorem dirLookup_cons_self (d : Dir) (dn : String) (e : DirEntry) :
    dirLookup ((dn, e) :: d) dn = some e := by
  simp [dirLookup, List.lookup]

theorem dirReplaceAttr_cons_self (d : Dir) (dn k : String) (e : DirEntry) (v : AttrVal) :
    dirReplaceAttr ((dn, e) :: d) dn k v =
      (dn, (k, v) :: e.filter (fun q => q.1 ≠ k)) :: dirReplaceAttr d dn k v := by
  simp [dirReplaceAttr]

theorem stAdd_none (d : Dir) (cs : List DirCall) (dn : String) (e : DirEntry)
    (h : dirLookup d dn = none) :
    stAdd ⟨d, cs⟩ dn e = (.ok (), ⟨(dn, e) :: d, cs ++ [DirCall.add dn e]⟩) := by
  simp [stAdd, h]

theorem stModify_head (d : Dir) (cs : List DirCall) (dn : String) (e : DirEntry)
    (k : String) (v : AttrVal) :
    stModify ⟨(dn, e) :: d, cs⟩ dn k v =
      (.ok (), ⟨(dn, (k, v) :: e.filter (fun q => q.1 ≠ k)) :: dirReplaceAttr d dn k v,
                cs ++ [DirCall.modifyReplace dn k v]⟩) := by
  simp [stModify, dirLookup_cons_self, dirReplaceAttr_cons_self]

theorem setPassword_secure (cfg : LdapConfig) (st : ClientSt) (dn pw : String)
    (h : cfg.isSecure ≠ some false) :
    setPassword cfg st dn pw =
      stModify st dn "unicodePwd" (AttrVal.bytes (utf16leBytes ("\"" ++ pw ++ "\""))) := by
  simp [setPassword, h]

theorem enableUserM_head (d : Dir) (cs : List DirCall) (dn : String) (e : DirEntry) :
    enableUserM ⟨(dn, e) :: d, cs⟩ dn =
      (.ok (),
       ⟨dirReplaceAttr ((dn, e) :: d) dn "userAccountControl"
          (AttrVal.str (toString (clearDisabled (uacCurrent (attrString (entryAttr e "userAccountControl")))))),
        cs ++ [DirCall.searchBase dn ["userAccountControl"],
               DirCall.modifyReplace dn "userAccountControl"
                 (AttrVal.str (toString (clearDisabled (uacCurrent (attrString (entryAttr e "userAccountControl"))))))]⟩) := by
  simp [enableUserM, stSearchBase, stModify, dirLookup_cons_self]

theorem entryAttr_cons (k : String) (v : AttrVal) (e : DirEntry) (a : String) :
    entryAttr ((k, v) :: e) a = if a = k then some v else entryAttr e a := by
  rcases eq_or_ne a k with h | h
  · subst h; simp [entryAttr, List.lookup]
  · simp [entryAttr, List.lookup, show (a == k) = false from beq_eq_false_iff_ne.mpr h, h]

theorem entryAttr_filter_keep (e : DirEntry) (pr : String × AttrVal → Bool) (a : String)
    (h : ∀ v, pr (a, v) = true) :
    entryAttr (e.filter pr) a = entryAttr e a := by
  induction e with
  | nil => rfl
  | cons p e ih =>
      obtain ⟨pk, pv⟩ := p
      cases hp : pr (pk, pv) with
      | true =>
          rw [List.filter_cons_of_pos hp, entryAttr_cons, entryAttr_cons, ih]
      | false =>
          have hne : a ≠ pk := by
            intro hc; subst hc; rw [h pv] at hp; cases hp
          rw [List.filter_cons_of_neg (by simp [hp]), ih, entryAttr_cons, if_neg hne]

theorem entryAttr_createEntry_uac (cn sam upn : String) :
    entryAttr (createEntry cn sam upn) "userAccountControl" = some (AttrVal.str "514") := by
  simp [createEntry, entryAttr, List.lookup]

theorem enable514 :
    toString (clearDisabled (uacCurrent (attrString (some (AttrVal.str "514"))))) = "512" := by
  decide

/-! Claim theorems. -/

/-- C1: for every create-user request whose sAMAccountName and UPN pass
validation, over a transport not marked unsecured, against a directory
without the target DN, the client issues in order exactly one add at
CN=escapeDN(cn),parentOuDn with userAccountControl 514, one modify
replacing unicodePwd with the UTF-16LE bytes of the quote-wrapped
initial password, one pwdLastSet-to-0 modify iff pwdMustChange, and the
read-then-modify enable sequence clearing bit 0x0002 iff
enableImmediately; the success envelope reports enabled equal to
enableImmediately and mustChangePassword equal to pwdMustChange. -/
theorem c1_createUser_sequence (cfg : LdapConfig) (dir : Dir) (p : CreateUserParams)
    (hsam : (validateSAMAccountName p.samAccountName).valid = true)
    (hupn : (validateUPN p.upn).valid = true)
    (hsec : cfg.isSecure ≠ some false)
    (habs : dirLookup dir (mkUserDn p.cn p.parentOuDn) = none) :
    (createUserM cfg ⟨dir, []⟩ p).1 =
      .ok { success := true
            dn := mkUserDn p.cn p.parentOuDn
            sAMAccountName := p.samAccountName
            userPrincipalName := p.upn
            enabled := p.enableImmediately
            mustChangePassword := p.pwdMustChange } ∧
    (createUserM cfg ⟨dir, []⟩ p).2.calls =
      [DirCall.add (mkUserDn p.cn p.parentOuDn) (createEntry p.cn p.samAccountName p.upn),
       DirCall.modifyReplace (mkUserDn p.cn p.parentOuDn) "unicodePwd"
         (AttrVal.bytes (utf16leBytes ("\"" ++ p.initialPassword ++ "\"")))] ++
      (if p.pwdMustChange then
        [DirCall.modifyReplace (mkUserDn p.cn p.parentOuDn) "pwdLastSet" (AttrVal.str "0")]
       else []) ++
      (if p.enableImmediately then
        [DirCall.searchBase (mkUserDn p.cn p.parentOuDn) ["userAccountControl"],
         DirCall.modifyReplace (mkUserDn p.cn p.parentOuDn) "userAccountControl"
           (AttrVal.str "512")]
       else []) := by
  have haddI := stAdd_none dir [] (mkUserDn p.cn p.parentOuDn)
    (createEntry p.cn p.samAccountName p.upn) habs
  have hspI := fun (st : ClientSt) =>
    setPassword_secure cfg st (mkUserDn p.cn p.parentOuDn) p.initialPassword hsec
  cases hpw : p.pwdMustChange <;> cases hen : p.enableImmediately <;>
    simp [createUserM, hsam, hupn, hpw, hen, haddI, hspI, stModify_head,
      dirReplaceAttr_cons_self, enableUserM_head, entryAttr_cons, entryAttr_filter_keep,
      entryAttr_createEntry_uac, enable514]

/-- C1 witness: the Jane Roe scenario of the specification executed
against an empty directory over LDAPS. -/
theorem c1_createUser_sequence_witness :
    (validateSAMAccountName "jroe").valid = true ∧
    (validateUPN "jroe@corp.test").valid = true ∧
    (createUserM
        { url := "ldaps://dc.corp.test:636", bindDn := "CN=admin,DC=corp,DC=test",
          password := "secret", timeout := none, tlsRejectUnauthorized := some true,
          tlsCa := none, isSecure := some true, hostType := none }
        ⟨[], []⟩
        { cn := "Jane Roe", parentOuDn := "OU=Users,DC=corp,DC=test",
          samAccountName := "jroe", upn := "jroe@corp.test",
          initialPassword := "Tmp!2345", pwdMustChange := true,
          enableImmediately := true }).1 =
      .ok { success := true, dn := mkUserDn "Jane Roe" "OU=Users,DC=corp,DC=test",
            sAMAccountName := "jroe", userPrincipalName := "jroe@corp.test",
            enabled := true, mustChangePassword := true } :=
  ⟨by decide, by decide,
   (c1_createUser_sequence _ [] _ (by decide) (by decide) (by decide) rfl).1⟩

/-- C2: every setPassword call on a configuration explicitly marked
unsecured fails with the policy error and returns the state untouched:
no call of any kind is appended to the trace and the directory is
unchanged. -/
theorem c2_setPassword_insecure_policy (cfg : LdapConfig) (st : ClientSt) (dn pw : String)
    (h : cfg.isSecure = some false) :
    setPassword cfg st dn pw = (.error .policyLdapsRequired, st) := by
  unfold setPassword
  rw [h]
  simp

/-- C2 witness: an unsecured configuration refused at a concrete state,
which is returned untouched. -/
theorem c2_setPassword_insecure_policy_witness :
    setPassword
      { url := "ldap://dc.corp.test:389", bindDn := "CN=admin,DC=corp,DC=test",
        password := "secret", timeout := none, tlsRejectUnauthorized := none,
        tlsCa := none, isSecure := some false, hostType := none }
      ⟨[("CN=u,DC=t", [])], []⟩ "CN=u,DC=t" "NewPw!234" =
      (.error .policyLdapsRequired, ⟨[("CN=u,DC=t", [])], []⟩) :=
  c2_setPassword_insecure_policy _ _ _ _ rfl

/-- C3: the shared retry wrapper of the primitive calls performs, on a
first-attempt error whose message includes closed or timeout, exactly
one reconnect that rebinds a fresh session from the stored
configuration (original bind DN, password, options) and returns the
second attempt's outcome, making two attempts in total; a successful or
non-transport-fault first attempt is returned unchanged with no
reconnect and a single attempt, so no third attempt ever happens. -/
theorem c3_withResilience_one_retry {α : Type} (cfg : LdapConfig) (s : Session)
    (first second : Except JsError α) :
    (∀ a, first = .ok a → withResilience cfg s first second = (.ok a, s, 0, 1)) ∧
    (∀ e, first = .error e → isTransportFault e = true →
      withResilience cfg s first second = (second, reconnectSession cfg, 1, 2)) ∧
    (∀ e, first = .error e → isTransportFault e = false →
      withResilience cfg s first second = (.error e, s, 0, 1)) := by
  refine ⟨?_, ?_, ?_⟩ <;> intro x hx
  · subst hx; rfl
  · intro hf; subst hx; simp [withResilience, hf]
  · intro hf; subst hx; simp [withResilience, hf]

/-- C3 witness: a first attempt failing with a closed-connection
message followed by a successful retry yields the retried result after
one reconnect and two attempts. -/
theorem c3_withResilience_one_retry_witness :
    withResilience
      { url := "ldaps://dc.corp.test:636", bindDn := "CN=admin,DC=corp,DC=test",
        password := "secret", timeout := some 5000, tlsRejectUnauthorized := some true,
        tlsCa := none, isSecure := some true, hostType := none }
      { url := "ldaps://dc.corp.test:636", timeout := 5000, connectTimeout := 5000,
        tlsRejectUnauthorized := some true, tlsCa := none,
        boundDn := "CN=admin,DC=corp,DC=test", boundPw := "secret" }
      (.error ⟨some "connection closed"⟩) (.ok (42 : Nat)) =
      (.ok 42,
       reconnectSession
         { url := "ldaps://dc.corp.test:636", bindDn := "CN=admin,DC=corp,DC=test",
           password := "secret", timeout := some 5000, tlsRejectUnauthorized := some true,
           tlsCa := none, isSecure := some true, hostType := none },
       1, 2) :=
  (c3_withResilience_one_retry _ _ _ _).2.1 ⟨some "connection closed"⟩ rfl (by decide)

/-- C4 counterexample: a stored userAccountControl of the string 0 is
parseable as the integer 0, yet the enable pipeline substitutes the 512
default (writing 512, not 0 with the bit cleared), refuting the claim
that 512 is used only for absent or unparseable values. -/
theorem c4_zero_string_counterexample :
    parseIntJS "0" = some 0 ∧
    uacCurrent (some "0") = 512 ∧
    (enableUserM ⟨[("CN=u,DC=t", [("userAccountControl", AttrVal.str "0")])], []⟩
        "CN=u,DC=t").2.calls =
      [DirCall.searchBase "CN=u,DC=t" ["userAccountControl"],
       DirCall.modifyReplace "CN=u,DC=t" "userAccountControl" (AttrVal.str "512")] := by
  decide

/-- C4 (amended): the new bitmask is obtained from the value read by
clearing (enable) or setting (disable) bit 0x0002 and leaving every
other bit of the 32-bit pattern unchanged; the current value is 512
exactly when the stored attribute is absent, unparseable by the
JavaScript parseInt, parses to 0 (the falsy-or default), or parses to
512 itself. -/
theorem c4_uac_default_and_bits (stored : Option String) :
    (uacCurrent stored = 512 ↔
      stored = none ∨ ∃ s, stored = some s ∧
        (parseIntJS s = none ∨ parseIntJS s = some 0 ∨ parseIntJS s = some 512)) ∧
    (∀ i, i < 32 → i ≠ 1 →
      Nat.testBit (pat32 (clearDisabled (uacCurrent stored))) i =
        Nat.testBit (pat32 (uacCurrent stored)) i) ∧
    Nat.testBit (pat32 (clearDisabled (uacCurrent stored))) 1 = false ∧
    (∀ i, i < 32 → i ≠ 1 →
      Nat.testBit (pat32 (setDisabled (uacCurrent stored))) i =
        Nat.testBit (pat32 (uacCurrent stored))  i) ∧
    Nat.testBit (pat32 (setDisabled (uacCurrent stored))) 1 = true := by
  have hclear : ∀ w : Int, pat32 (clearDisabled w) = pat32 w &&& 4294967293 := by
    intro w; unfold clearDisabled; rw [pat32_jsAnd, pat32_jsNot_two]
  have hset : ∀ w : Int, pat32 (setDisabled w) = pat32 w ||| 2 := by
    intro w; unfold setDisabled; rw [pat32_jsOr, pat32_two]
  refine ⟨?_, ?_, ?_, ?_, ?_⟩
  · cases stored with
    | none => simp [uacCurrent]
    | some s =>
        cases h : parseIntJS s with
        | none => simp [uacCurrent, h]
        | some v =>
            rcases eq_or_ne v 0 with h0 | h0
            · subst h0; simp [uacCurrent, h]
            · simp only [uacCurrent, h, if_neg h0, Option.some.injEq]
              constructor
              · intro hv; exact Or.inr ⟨s, rfl, Or.inr (Or.inr (by rw [hv] at h; exact h))⟩
              · rintro (h1 | ⟨t, ht, h2 | h2 | h2⟩) <;> simp_all
  · intro i h32 h1
    rw [hclear]
    simp [Nat.testBit_and, testBit_m32 i h32 h1]
  · rw [hclear]
    simp [Nat.testBit_and, testBit_m32_one]
  · intro i h32 h1
    rw [hset]
    simp [Nat.testBit_or, testBit_two i h1]
  · rw [hset]
    simp only [Nat.testBit_or]
    have h2 : Nat.testBit 2 1 = true := by decide
    rw [h2, Bool.or_true]

/-- C4 witness: bit 0 (and bit 9) of a read value 513 survive both the
enable and the disable transformation. -/
theorem c4_uac_default_and_bits_witness :
    Nat.testBit (pat32 (clearDisabled (uacCurrent (some "513")))) 0 =
      Nat.testBit (pat32 (uacCurrent (some "513"))) 0 ∧
    Nat.testBit (pat32 (setDisabled (uacCurrent (some "513")))) 9 =
      Nat.testBit (pat32 (uacCurrent (some "513"))) 9 :=
  ⟨(c4_uac_default_and_bits (some "513")).2.1 0 (by decide) (by decide),
   (c4_uac_default_and_bits (some "513")).2.2.2.1 9 (by decide) (by decide)⟩

/-- C5 counterexample: starting from the bitmask 514 (normal account,
already disabled), set-disabled keeps 514 but clear-disabled then
yields 512, so set-disabled followed by clear-disabled does not restore
the original bitmask for every start. -/
theorem c5_disabled_start_counterexample :
    setDisabled 514 = 514 ∧
    clearDisabled (setDisabled 514) = 512 ∧
    (512 : Int) ≠ 514 := by
  decide

/-- C5 (amended): for every canonical 32-bit bitmask, set-disabled is
idempotent, set-disabled then clear-disabled equals clear-disabled
alone, preserves every bit other than 0x0002, and restores the original
exactly when the original had the 0x0002 bit clear. -/
theorem c5_set_clear_algebra (v : Int) (hv : isInt32 v) :
    setDisabled (setDisabled v) = setDisabled v ∧
    clearDisabled (setDisabled v) = clearDisabled v ∧
    (Nat.testBit (pat32 v) 1 = false → clearDisabled (setDisabled v) = v) ∧
    (∀ i, i < 32 → i ≠ 1 →
      Nat.testBit (pat32 (clearDisabled (setDisabled v))) i = Nat.testBit (pat32 v) i) := by
  have hOr : ∀ a : Int, jsOr a 2 = ofPat32 (pat32 a ||| 2) := by
    intro a; unfold jsOr; rw [pat32_two]
  have hAndM : ∀ a : Int, jsAnd a (jsNot 2) = ofPat32 (pat32 a &&& 4294967293) := by
    intro a; unfold jsAnd; rw [pat32_jsNot_two]
  have hset : pat32 (setDisabled v) = pat32 v ||| 2 := by
    unfold setDisabled; rw [pat32_jsOr, pat32_two]
  have hclear : ∀ w : Int, pat32 (clearDisabled w) = pat32 w &&& 4294967293 := by
    intro w; unfold clearDisabled; rw [pat32_jsAnd, pat32_jsNot_two]
  refine ⟨?_, ?_, ?_, ?_⟩
  · unfold setDisabled
    rw [hOr (jsOr v 2), pat32_jsOr, pat32_two, Nat.or_assoc, Nat.or_self, hOr v]
  · unfold clearDisabled setDisabled
    rw [hAndM (jsOr v 2), hAndM v, pat32_jsOr, pat32_two, set_clear_pattern]
  · intro hbit
    unfold clearDisabled setDisabled
    rw [hAndM (jsOr v 2), pat32_jsOr, pat32_two, set_clear_pattern]
    have hfix : pat32 v &&& 4294967293 = pat32 v := by
      apply Nat.eq_of_testBit_eq
      intro i
      rcases eq_or_ne i 1 with h1 | h1
      · subst h1; simp [Nat.testBit_and, testBit_m32_one, hbit]
      · rcases Nat.lt_or_ge i 32 with h32 | h32
        · simp [Nat.testBit_and, testBit_m32 i h32 h1]
        · simp [Nat.testBit_and, testBit_ge32 (pat32_lt v) h32]
    rw [hfix, ofPat32_pat32 hv]
  · intro i h32 h1
    rw [hclear (setDisabled v), hset, set_clear_pattern]
    simp [Nat.testBit_and, testBit_m32 i h32 h1]

/-- C5 witness: from the enabled bitmask 512, disable then enable
restores 512 exactly. -/
theorem c5_set_clear_algebra_witness :
    isInt32 512 ∧ Nat.testBit (pat32 512) 1 = false ∧
    clearDisabled (setDisabled 512) = 512 :=
  ⟨by decide, by decide, (c5_set_clear_algebra 512 (by decide)).2.2.1 (by decide)⟩

/-- C6 counterexample: the string of a, tab, b has length 3 and
contains none of the characters the claim lists (tab is not the space
character), yet validation reports invalid, because the implemented
regex class rejects every whitespace character, not just space. -/
theorem c6_tab_counterexample :
    (validateSAMAccountName "a\tb").valid = false ∧
    jsLength "a\tb" = 3 ∧
    ("a\tb".data.all (fun c => !(samClaimChars.contains c))) = true := by
  decide

/-- C6 (amended): validation reports valid exactly for candidates of
UTF-16 length 1 to 20 containing no character of the implemented class,
which is the claim's set with the single space broadened to the whole
JavaScript regex whitespace class. -/
theorem c6_sam_valid_iff (sam : String) :
    (validateSAMAccountName sam).valid = true ↔
      1 ≤ jsLength sam ∧ jsLength sam ≤ 20 ∧
        sam.data.all (fun c => !isBadSamChar c) = true := by
  unfold validateSAMAccountName
  split_ifs with h1 h2 h3
  · constructor
    · intro h; simp at h
    · rintro ⟨ha, hb, hc⟩; omega
  · constructor
    · intro h; simp at h
    · rintro ⟨ha, hb, hc⟩; omega
  · constructor
    · intro h; exact absurd h (by decide)
    · rintro ⟨-, -, hall⟩
      rw [List.all_eq_true] at hall
      rw [List.any_eq_true] at h3
      obtain ⟨c, hc, hbad⟩ := h3
      have hcontra := hall c hc
      simp [hbad] at hcontra
  · constructor
    · intro h
      refine ⟨by omega, by omega, ?_⟩
      rw [List.all_eq_true]
      intro c hc
      by_contra hbc
      exact h3 (List.any_eq_true.mpr ⟨c, hc, by simpa using hbc⟩)
    · intro h
      rfl

/-- C7 counterexample: a present but empty lockoutTime value is neither
absent nor the string 0, yet the operation issues no modify and reports
wasLocked false, because the empty string is falsy in the lock test. -/
theorem c7_empty_lockout_counterexample :
    unlockUserM ⟨[("CN=u,DC=t", [("lockoutTime", AttrVal.str "")])], []⟩ "CN=u,DC=t" =
      (.ok { wasLocked := false, unlocked := false },
       ⟨[("CN=u,DC=t", [("lockoutTime", AttrVal.str "")])],
        [DirCall.searchBase "CN=u,DC=t" ["lockoutTime", "userAccountControl"]]⟩) ∧
    attrString (entryAttr [("lockoutTime", AttrVal.str "")] "lockoutTime") = some "" ∧
    ("" : String) ≠ "0" := by
  refine ⟨?_, ?_, ?_⟩
  · rfl
  · rfl
  · decide

/-- C7 (amended): for an existing user, when lockoutTime is absent,
empty, or the string 0, only the read is issued, the directory is
unchanged and the result reports wasLocked false; when it is a
non-empty value other than 0, exactly one modify replacing lockoutTime
with 0 follows the read and the result reports wasLocked true. -/
theorem c7_unlock_write_iff_locked (dir : Dir) (dn : String) (e : DirEntry)
    (h : dirLookup dir dn = some e) :
    ((attrString (entryAttr e "lockoutTime") = none ∨
      attrString (entryAttr e "lockoutTime") = some "" ∨
      attrString (entryAttr e "lockoutTime") = some "0") →
      unlockUserM ⟨dir, []⟩ dn =
        (.ok { wasLocked := false, unlocked := false },
         ⟨dir, [DirCall.searchBase dn ["lockoutTime", "userAccountControl"]]⟩)) ∧
    (∀ s, attrString (entryAttr e "lockoutTime") = some s → s ≠ "" → s ≠ "0" →
      unlockUserM ⟨dir, []⟩ dn =
        (.ok { wasLocked := true, unlocked := true },
         ⟨dirReplaceAttr dir dn "lockoutTime" (AttrVal.str "0"),
          [DirCall.searchBase dn ["lockoutTime", "userAccountControl"],
           DirCall.modifyReplace dn "lockoutTime" (AttrVal.str "0")]⟩)) := by
  constructor
  · intro hlt
    rcases hlt with h0 | h0 | h0 <;>
      simp [unlockUserM, stSearchBase, stModify, h, h0]
  · intro s hs hne h0
    simp [unlockUserM, stSearchBase, stModify, h, hs, hne, h0]

/-- C7 witness: a locked account (lockoutTime 133500) is unlocked with
exactly one modify and reports wasLocked true. -/
theorem c7_unlock_write_iff_locked_witness :
    unlockUserM ⟨[("CN=u,DC=t", [("lockoutTime", AttrVal.str "133500")])], []⟩ "CN=u,DC=t" =
      (.ok { wasLocked := true, unlocked := true },
       ⟨dirReplaceAttr [("CN=u,DC=t", [("lockoutTime", AttrVal.str "133500")])]
          "CN=u,DC=t" "lockoutTime" (AttrVal.str "0"),
        [DirCall.searchBase "CN=u,DC=t" ["lockoutTime", "userAccountControl"],
         DirCall.modifyReplace "CN=u,DC=t" "lockoutTime" (AttrVal.str "0")]⟩) :=
  (c7_unlock_write_iff_locked [("CN=u,DC=t", [("lockoutTime", AttrVal.str "133500")])]
      "CN=u,DC=t" [("lockoutTime", AttrVal.str "133500")] (by decide)).2
    "133500" (by decide) (by decide) (by decide)

/-- C8: for every scope in global, domainLocal, universal and every
category in security, distribution, decoding the decimal wire string of
the encoded groupType bitmask returns exactly the same category and
scope, the security high bit travelling through the signed 32-bit
stringification. -/
theorem c8_groupType_roundtrip :
    ∀ (s : GroupScope) (c : GroupCategory),
      decodeGroupType (some (groupTypeWire s c)) = (c, liftScope s) := by
  intro s c
  cases s <;> cases c <;> decide

/-- C9 counterexample: a group entry carrying a single empty-string
member value equal to the empty candidate DN still yields false,
because a single empty string is falsy at the member check; so the
claimed exact characterization (true iff some member value matches)
fails at this input. -/
theorem c9_empty_member_counterexample :
    isGroupMember "" (Except.ok [{ member := some (MemberVal.single "") }]) = false ∧
    jsToLower "" = jsToLower "" := by
  exact ⟨by decide, rfl⟩

/-- C9 (amended): isGroupMember is a total boolean function — any
search error yields false — and it returns true exactly when the first
entry carries a member attribute with a matching value under lowered
comparison, where a matching single value must additionally be
non-empty (a single empty string is falsy and yields false). -/
theorem c9_isGroupMember_characterization (userDn : String)
    (res : Except JsError (List GroupSearchEntry)) :
    (∀ er, res = .error er → isGroupMember userDn res = false) ∧
    (isGroupMember userDn res = true ↔
      ∃ e rest, res = .ok (e :: rest) ∧
        ((∃ s, e.member = some (.single s) ∧ s ≠ "" ∧ jsToLower s = jsToLower userDn) ∨
         (∃ l, e.member = some (.multi l) ∧ ∃ m ∈ l, jsToLower m = jsToLower userDn))) := by
  constructor
  · intro er her; subst her; rfl
  · cases res with
    | error er => simp [isGroupMember]
    | ok l =>
        cases l with
        | nil => simp [isGroupMember]
        | cons e rest =>
            cases hm : e.member with
            | none => simp [isGroupMember, hm]
            | some mv =>
                cases mv with
                | single s =>
                    rcases eq_or_ne s "" with h0 | h0
                    · subst h0; simp [isGroupMember, hm]
                    · simp [isGroupMember, hm, h0]
                | multi ll =>
                    simp [isGroupMember, hm, List.any_eq_true]

/-- C9 witness: a failed search is absorbed to false. -/
theorem c9_isGroupMember_characterization_witness :
    isGroupMember "CN=u,DC=t" (Except.error ⟨some "no such object"⟩) = false :=
  (c9_isGroupMember_characterization "CN=u,DC=t" (Except.error ⟨some "no such object"⟩)).1
    ⟨some "no such object"⟩ rfl

/-- C10: the maxResults cap truncates the raw search result before the
groupType and scope post-filters run: with a distribution group first
and a security group second, asking for security groups with maxResults
one returns nothing, while the same request uncapped returns the one
security group that exists. -/
theorem c10_listGroups_cap_before_filter :
    (listGroupsModel
        [{ dn := "CN=a,DC=t", cn := "a", samAccountName := none, description := none,
           groupTypeAttr := some "2" },
         { dn := "CN=b,DC=t", cn := "b", samAccountName := none, description := none,
           groupTypeAttr := some "-2147483646" }] "security" "all" (some 1)).length = 0 ∧
    (listGroupsModel
        [{ dn := "CN=a,DC=t", cn := "a", samAccountName := none, description := none,
           groupTypeAttr := some "2" },
         { dn := "CN=b,DC=t", cn := "b", samAccountName := none, description := none,
           groupTypeAttr := some "-2147483646" }] "security" "all" none).length = 1 := by
  decide
